import Mathlib

/-!
The light-state model of `driver.go` (driver-go-lifx).

A shallow embedding of the LIFX driver's state handling: the `LightState`
record, the four channel handlers (on/off, brightness, color, batching), the
mutators `setColor`, `setTransition`, `turnOnOff`, `setBrightness`, the batch
bracket `StartBatch` / `EndBatch`, and the snapshot `GetJsonLightState`.

Conventions of the embedding

* A `*Light` receiver is passed as a `Light` value and returned updated.
* Calls that leave the process (`SendEvent` on a channel bus, `TurnOn` /
  `TurnOff` on the device client) are appended to `Light.effects`, oldest
  first.  Log calls are not recorded.
* `uint16` values are naturals; every conversion to `uint16` reduces modulo
  `2 ^ 16` explicitly.  Go `int` values are integers.
* `float64` values are `F64`: a finite value is the exact rational it denotes,
  arithmetic rounds the exact result to the nearest binary64 value (ties to
  even).  The sign of zero is not tracked.
* A `simplejson.Json` is the tree `Json`; its accessors return the pair of the
  Go call, the second component telling whether `err == nil`.
-/

namespace Lifx

/-! ## float64 -/

/-- A float64 value: a finite value (the rational it denotes), an infinity with
its sign bit, or NaN. -/
inductive F64 where
  | fin (q : ℚ)
  | inf (neg : Bool)
  | nan
deriving DecidableEq, Repr

namespace F64

/-- Nearest integer to `x`, a tie going to the even neighbour. -/
def roundHalfEven (x : ℚ) : ℤ :=
  if Int.fract x < 1 / 2 then ⌊x⌋
  else if 1 / 2 < Int.fract x then ⌊x⌋ + 1
  else if ⌊x⌋ % 2 = 0 then ⌊x⌋ else ⌊x⌋ + 1

/-- The binary exponent of the unit in the last place used for `q`: 53
significant bits for a normal value, the fixed exponent `-1074` for a
subnormal one. -/
def ulpExp (q : ℚ) : ℤ := max (Int.log 2 |q| - 52) (-1074)

/-- The binary64 value nearest to the exact rational `q` (round to nearest,
ties to even); a result of magnitude `2 ^ 1024` or more overflows to the
infinity of the sign of `q`. -/
def ofRat (q : ℚ) : F64 :=
  let r : ℚ := (roundHalfEven (q / (2 : ℚ) ^ ulpExp q) : ℚ) * (2 : ℚ) ^ ulpExp q
  if (2 : ℚ) ^ (1024 : ℤ) ≤ |r| then inf (decide (q < 0)) else fin r

/-- The float64 product `x * y`. -/
def mul : F64 → F64 → F64
  | fin a, fin b => ofRat (a * b)
  | fin a, inf s => if a = 0 then nan else inf (xor s (decide (a < 0)))
  | inf s, fin b => if b = 0 then nan else inf (xor s (decide (b < 0)))
  | inf s, inf t => inf (xor s t)
  | _, _ => nan

/-- The float64 quotient `x / y`.  A finite zero divisor is taken as `+0`. -/
def div : F64 → F64 → F64
  | fin a, fin b =>
    if b = 0 then (if a = 0 then nan else inf (decide (a < 0))) else ofRat (a / b)
  | fin _, inf _ => fin 0
  | inf s, fin b => inf (xor s (decide (b < 0)))
  | _, _ => nan

/-- The function `math.Floor`: the greatest integer value not above `x`;
infinities and NaN are returned as they are. -/
def floor : F64 → F64
  | fin q => fin (⌊q⌋ : ℤ)
  | x => x

/-- The integer part of `q`, rounding toward zero. -/
def truncQ (q : ℚ) : ℤ := if 0 ≤ q then ⌊q⌋ else ⌈q⌉

/-- The conversion `uint16(x)` of a float64.  The value is truncated toward
zero and its low 16 bits are kept.  Go leaves the result open when the
truncated value does not fit the target type; the choice here is the one of
the amd64 compiler, which converts through a signed 32-bit integer: a value
outside that range, an infinity or NaN gives the low 16 bits of `0x80000000`,
that is 0. -/
def toUint16 : F64 → ℕ
  | fin q =>
    if -(2 : ℤ) ^ 31 ≤ truncQ q ∧ truncQ q < (2 : ℤ) ^ 31 then (truncQ q % 65536).toNat else 0
  | _ => 0

/-- The rational denoted by a finite value; 0 for an infinity or NaN. -/
def toRat : F64 → ℚ
  | fin q => q
  | _ => 0

/-- Whether the value is finite. -/
def isFinite : F64 → Bool
  | fin _ => true
  | _ => false

end F64

/-- The constant `math.MaxUint16`. -/
def MaxUint16 : ℕ := 65535

/-! ## simplejson -/

/-- The data held by a `simplejson.Json`.  A number decoded from an integer
literal is `int`; a number decoded from a literal with a fraction or an
exponent, and a Go float64 stored by `Set`, is `num`. -/
inductive Json where
  | null
  | bool (b : Bool)
  | int (n : ℤ)
  | num (x : F64)
  | str (s : String)
  | arr (xs : List Json)
  | obj (kvs : List (String × Json))
deriving Repr

/-- The call `simplejson.New()`: an empty object. -/
def Json.New : Json := Json.obj []

/-- The call `j.Get(key)`: the member `key` of an object, and a `Json` holding
nil when `j` is not an object or has no such member.  The returned pointer is
never nil. -/
def Json.Get (j : Json) (key : String) : Json :=
  match j with
  | Json.obj kvs => (kvs.lookup key).getD Json.null
  | _ => Json.null

/-- The call `j.GetIndex(i)`: the element `i` of an array, and a `Json` holding
nil when `j` is not an array or `i` is out of range. -/
def Json.GetIndex (j : Json) (i : ℕ) : Json :=
  match j with
  | Json.arr xs => xs.getD i Json.null
  | _ => Json.null

/-- The call `j.Set(key, val)`: on an object the member `key` is replaced or
added; anything else is left as it is. -/
def Json.Set (j : Json) (key : String) (val : Json) : Json :=
  match j with
  | Json.obj kvs => Json.obj (kvs.filter (fun kv => kv.1 ≠ key) ++ [(key, val)])
  | j => j

/-- The call `j.Float64()`: the float64 of a number, with `err == nil` unless
the literal is out of the float64 range (the infinity is returned with the
error); `(0, err)` for anything that is not a number. -/
def Json.Float64 (j : Json) : F64 × Bool :=
  match j with
  | Json.int n => (F64.ofRat n, (F64.ofRat n).isFinite)
  | Json.num x => (x, x.isFinite)
  | _ => (F64.fin 0, false)

/-- The call `j.Int()` on a 64-bit platform: the value of an integer literal,
with `err == nil` when it fits a signed 64-bit integer and the nearest bound
with the error otherwise; `(0, err)` for a number written with a fraction or
an exponent and for anything that is not a number. -/
def Json.Int (j : Json) : ℤ × Bool :=
  match j with
  | Json.int n =>
    if n < -(2 : ℤ) ^ 63 then (-(2 : ℤ) ^ 63, false)
    else if (2 : ℤ) ^ 63 ≤ n then ((2 : ℤ) ^ 63 - 1, false)
    else (n, true)
  | _ => (0, false)

/-- The call `j.String()`: the string held, `("", err)` for anything else. -/
def Json.String (j : Json) : String × Bool :=
  match j with
  | Json.str s => (s, true)
  | _ => ("", false)

/-- The call `j.Bool()`: the boolean held, `(false, err)` for anything else. -/
def Json.Bool (j : Json) : Bool × Bool :=
  match j with
  | Json.bool b => (b, true)
  | _ => (false, false)

/-! ## The light -/

/-- The struct `LightState`.  A nil pointer and a nil slice are `none`. -/
structure LightState where
  On : Option Bool
  Brightness : Option ℕ
  Hue : Option ℕ
  Saturation : Option ℕ
  TransitionTime : Option ℕ
  XY : Option (List F64)
  ColorTemp : Option ℕ
deriving DecidableEq, Repr

/-- A call that leaves the process: `SendEvent(event, body)` on the bus of the
channel `channel`, or `TurnOn()` / `TurnOff()` on the device client. -/
inductive Effect where
  | SendEvent (channel : String) (event : String) (body : Json)
  | TurnOn
  | TurnOff
deriving Repr

/-- Whether the effect is a bus event. -/
def Effect.isEvent : Effect → Bool
  | Effect.SendEvent _ _ _ => true
  | _ => false

/-- The struct `Light`: identifier, name, batching flag and light state.  The
bus handles and the device client are replaced by the record `effects` of the
calls made on them, oldest first. -/
structure Light where
  Id : String
  Name : String
  Batch : Bool
  LightState : LightState
  effects : List Effect
deriving Repr

/-- The bus events among the recorded calls, oldest first. -/
def Light.events (l : Light) : List Effect := l.effects.filter Effect.isEvent

/-- A `*bool` stored in a snapshot: its value, nil for a nil pointer. -/
def jsonOfBool : Option Bool → Json
  | some b => Json.bool b
  | none => Json.null

/-- A `*uint16` stored in a snapshot: its value, nil for a nil pointer. -/
def jsonOfUint16 : Option ℕ → Json
  | some n => Json.int n
  | none => Json.null

/-- A `[]float64` stored in a snapshot: its elements, nil for a nil slice. -/
def jsonOfFloats : Option (List F64) → Json
  | some xs => Json.arr (xs.map Json.num)
  | none => Json.null

/-- The method `GetJsonLightState`. -/
def GetJsonLightState (l : Light) : Json :=
  let st := l.LightState
  let js := Json.New
  let js := js.Set "on" (jsonOfBool st.On)
  let js := js.Set "bri" (jsonOfUint16 st.Brightness)
  let js := js.Set "sat" (jsonOfUint16 st.Saturation)
  let js := js.Set "hue" (jsonOfUint16 st.Hue)
  let js := js.Set "ct" (jsonOfUint16 st.ColorTemp)
  let js := js.Set "transitionTime" (jsonOfUint16 st.TransitionTime)
  let js := js.Set "xy" (jsonOfFloats st.XY)
  js

/-- The call `bus.SendEvent(event, body)` on the bus of `channel`. -/
def SendEvent (l : Light) (channel : String) (event : String) (body : Json) : Light :=
  { l with effects := l.effects ++ [Effect.SendEvent channel event body] }

/-- The function `createLightState`. -/
def createLightState : LightState :=
  { On := some false
    Brightness := some 0
    Saturation := some 0
    Hue := some 0
    TransitionTime := some 0
    XY := none
    ColorTemp := none }

/-- The function `NewLight`: the light built for a discovered device, before
any command.  The channels announced are the four handlers below. -/
def NewLight : Light :=
  { Id := "1"
    Name := "LiFX Bulb"
    LightState := createLightState
    Batch := false
    effects := [] }

/-- The method `StartBatch`. -/
def StartBatch (l : Light) : Light := { l with Batch := true }

/-- The method `EndBatch`: the event goes out on the on/off bus. -/
def EndBatch (l : Light) : Light :=
  let l := { l with Batch := false }
  SendEvent l "on-off" "state" (GetJsonLightState l)

/-- The method `turnOnOff`: a call on the device client, nothing else. -/
def turnOnOff (l : Light) (state : Bool) : Light :=
  if state = true then { l with effects := l.effects ++ [Effect.TurnOn] }
  else { l with effects := l.effects ++ [Effect.TurnOff] }

/-- The method `setBrightness`: its body is empty. -/
def setBrightness (l : Light) (_fbrightness : F64) : Light := l

/-- The method `refreshLightState`: its body is empty. -/
def refreshLightState (l : Light) : Light := l

/-- The method `setTransition`: Go integer division truncates toward zero, and
`uint16` of an `int` keeps the low 16 bits. -/
def setTransition (l : Light) (transTime : ℤ) : Light :=
  let transTime := Int.tdiv transTime 1000
  let utranstime : ℕ := (transTime % 65536).toNat
  { l with LightState := { l.LightState with TransitionTime := some utranstime } }

/-- The statement `if trans, e := payload.Get("transition").Int(); e == nil`
that opens each case of `setColor`. -/
def applyTransition (l : Light) (payload : Json) : Light :=
  match (payload.Get "transition").Int with
  | (transVal, true) => setTransition l transVal
  | (_, false) => l

/-- The method `setColor`. -/
def setColor (l : Light) (payload : Json) (mode : String) : Light :=
  let l := refreshLightState l
  let r : Option Light :=
    if mode = "hue" then
      let l := applyTransition l payload
      let fhue := (payload.Get "hue").Float64.1
      let hue := F64.toUint16 (F64.mul fhue (F64.ofRat MaxUint16))
      let fsaturation := (payload.Get "saturation").Float64.1
      let saturation := F64.toUint16 (F64.mul fsaturation (F64.ofRat MaxUint16))
      let onVal := true
      some { l with LightState :=
        { l.LightState with Hue := some hue, Saturation := some saturation, On := some onVal } }
    else if mode = "xy" then
      let l := applyTransition l payload
      let x := (payload.Get "x").Float64.1
      let y := (payload.Get "y").Float64.1
      let xy := [x, y]
      some { l with LightState :=
        { l.LightState with XY := some xy, Hue := none, Saturation := none, ColorTemp := none } }
    else if mode = "temperature" then
      let l := applyTransition l payload
      let temp := (payload.Get "temperature").Float64.1
      let utemp := F64.toUint16 (F64.floor (F64.div (F64.ofRat 1000000) temp))
      some { l with LightState :=
        { l.LightState with ColorTemp := some utemp, XY := none, Hue := none, Saturation := none } }
    else
      none
  match r with
  | none => l
  | some l =>
    if !l.Batch then SendEvent l "color" "state" (GetJsonLightState l)
    else l

/-- The method `setBatchColor`.  The pointer returned by `Get` is `some`. -/
def setBatchColor (l : Light) (payload : Json) : Light :=
  let l := StartBatch l
  let color : Option Json := some (payload.Get "color")
  let l := match color with
    | some color => setColor l color "hue"
    | none => l
  let l := match (payload.Get "brightness").Float64 with
    | (brightness, true) => setBrightness l brightness
    | (_, false) => l
  let l := match (payload.Get "on-off").Bool with
    | (onoff, true) => turnOnOff l onoff
    | (_, false) => l
  let l := match (payload.Get "transition").Int with
    | (transition, true) => setTransition l transition
    | (_, false) => l
  EndBatch l

/-- The handler announced by `getOnOffBus`. -/
def onOffHandler (l : Light) (method : String) (payload : Json) : Light :=
  if l.Batch = true then l
  else if method = "turnOn" then turnOnOff l true
  else if method = "turnOff" then turnOnOff (refreshLightState l) false
  else if method = "set" then
    let state := (payload.GetIndex 0).Bool.1
    turnOnOff l state
  else l

/-- The handler announced by `getBrightBus`. -/
def brightnessHandler (l : Light) (method : String) (payload : Json) : Light :=
  if l.Batch = true then l
  else if method = "set" then
    let brightness := (payload.GetIndex 0).Float64.1
    setBrightness l brightness
  else l

/-- The handler announced by `getColorBus`.  A missing mode is logged and
`setColor` is still called, with the empty string. -/
def colorHandler (l : Light) (method : String) (payload : Json) : Light :=
  if l.Batch = true then l
  else if method = "set" then
    let mode := (payload.Get "mode").String.1
    setColor l payload mode
  else l

/-- The handler announced by `getBatchBus`. -/
def batchHandler (l : Light) (method : String) (payload : Json) : Light :=
  if method = "setBatch" then setBatchColor l (payload.GetIndex 0)
  else l

/-! ## Sample commands -/

/-- The color payload `{"mode": "hue", "hue": 0.5, "saturation": 1.0}`. -/
def hueHalf : Json :=
  Json.obj [("mode", Json.str "hue"), ("hue", Json.num (F64.fin (1 / 2))),
    ("saturation", Json.num (F64.fin 1))]

/-- The color payload `{"mode": "xy", "x": 0.3125, "y": 0.375}`. -/
def xySample : Json :=
  Json.obj [("mode", Json.str "xy"), ("x", Json.num (F64.fin (5 / 16))),
    ("y", Json.num (F64.fin (3 / 8)))]

/-- The color payload `{"mode": "temperature", "temperature": 1}`. -/
def tempOne : Json :=
  Json.obj [("mode", Json.str "temperature"), ("temperature", Json.int 1)]

/-- The color payload `{"mode": "temperature", "temperature": 0}`. -/
def tempZero : Json :=
  Json.obj [("mode", Json.str "temperature"), ("temperature", Json.int 0)]

/-- The color payload `{"mode": "temperature", "temperature": 2700}`. -/
def tempWarm : Json :=
  Json.obj [("mode", Json.str "temperature"), ("temperature", Json.int 2700)]

/-- The batch payload `{"color": c, "brightness": 1.0, "on-off": false}` with
`c` the color payload `hueHalf`. -/
def batchSample : Json :=
  Json.obj [("color", hueHalf), ("brightness", Json.num (F64.fin 1)),
    ("on-off", Json.bool false)]

/-- The color payload `{"hue": 0.5, "saturation": 1.0}`, without a mode. -/
def noMode : Json :=
  Json.obj [("hue", Json.num (F64.fin (1 / 2))), ("saturation", Json.num (F64.fin 1))]

/-- The on/off payload `[true]`. -/
def onPayload : Json := Json.arr [Json.bool true]

/-- The number of color representations populated in a light state, among
{hue, saturation}, {colorTemperature} and {xy}; the invariant of the data
model asks for exactly one. -/
def populatedRepresentations (st : LightState) : ℕ :=
  (if st.Hue.isSome ∨ st.Saturation.isSome then 1 else 0)
    + (if st.ColorTemp.isSome then 1 else 0)
    + (if st.XY.isSome then 1 else 0)

/-- The batch payload `{"brightness": 1.0}`: no color, no on-off. -/
def brightnessOnly : Json := Json.obj [("brightness", Json.num (F64.fin 1))]

/-- The color payload `{"mode": "hue", "saturation": 1.0}`: the hue is missing. -/
def hueMissing : Json :=
  Json.obj [("mode", Json.str "hue"), ("saturation", Json.num (F64.fin 1))]

/-! ## Command sequences -/

/-- The four channels announced by `NewLight`. -/
inductive Channel where
  | onOff
  | brightness
  | color
  | batching
deriving DecidableEq, Repr

/-- A command delivered by the bus: its channel, method name and payload. -/
structure Command where
  channel : Channel
  method : String
  payload : Json
deriving Repr

/-- The dispatch of one command to the handler announced for its channel; the
handler runs to completion before the next command. -/
def handle (l : Light) (c : Command) : Light :=
  match c.channel with
  | Channel.onOff => onOffHandler l c.method c.payload
  | Channel.brightness => brightnessHandler l c.method c.payload
  | Channel.color => colorHandler l c.method c.payload
  | Channel.batching => batchHandler l c.method c.payload

/-- The light after a sequence of commands handled one after the other. -/
def run (l : Light) (cmds : List Command) : Light := cmds.foldl handle l

/-! ## Rounding lemmas -/

theorem roundHalfEven_le_of_le (x : ℚ) (k : ℤ) (h : x ≤ (k : ℚ)) : F64.roundHalfEven x ≤ k := by
  have hfl : ⌊x⌋ ≤ k := Int.cast_le.mp ((Int.floor_le x).trans h)
  have hstep : 0 < Int.fract x → ⌊x⌋ + 1 ≤ k := by
    intro hpos
    have hne : x ≠ (k : ℚ) := by
      intro hx
      rw [hx, Int.fract_intCast] at hpos
      exact lt_irrefl _ hpos
    have hlt : ⌊x⌋ < k := Int.floor_lt.mpr (lt_of_le_of_ne h hne)
    omega
  unfold F64.roundHalfEven
  split_ifs with h1 h2 h3
  · exact hfl
  · exact hstep (lt_trans (by norm_num) h2)
  · exact hfl
  · exact hstep (lt_of_lt_of_le (by norm_num) (not_lt.mp h1))

theorem le_roundHalfEven_of_le (x : ℚ) (k : ℤ) (h : (k : ℚ) ≤ x) : k ≤ F64.roundHalfEven x := by
  have hfl : k ≤ ⌊x⌋ := Int.le_floor.mpr h
  unfold F64.roundHalfEven
  split_ifs <;> omega

theorem ulpExp_le (q : ℚ) (j : ℕ) (hj : j ≤ 52) (hq : |q| < (2 : ℚ) ^ (53 - (j : ℤ))) :
    F64.ulpExp q ≤ -(j : ℤ) := by
  unfold F64.ulpExp
  have hlog : Int.log 2 |q| < 53 - (j : ℤ) := by
    rcases eq_or_lt_of_le (abs_nonneg q) with h0 | hpos
    · rw [← h0, Int.log_zero_right]; omega
    · exact (Int.lt_zpow_iff_log_lt (R := ℚ) (b := 2) (by norm_num) hpos).mp
        (by exact_mod_cast hq)
  exact max_le (by omega) (by omega)

/-- The dyadic value `k / 2 ^ j` is a multiple of the unit in the last place of `q`. -/
theorem dyadic_div_ulp (q : ℚ) (j : ℕ) (hj : j ≤ 52) (hq : |q| < (2 : ℚ) ^ (53 - (j : ℤ)))
    (k : ℤ) : ∃ m : ℤ, ((k : ℚ) / 2 ^ j) / (2 : ℚ) ^ F64.ulpExp q = (m : ℚ) := by
  have he := ulpExp_le q j hj hq
  obtain ⟨n, hn⟩ : ∃ n : ℕ, F64.ulpExp q = -((j + n : ℕ) : ℤ) :=
    ⟨(-F64.ulpExp q - j).toNat, by push_cast; omega⟩
  refine ⟨k * 2 ^ n, ?_⟩
  rw [hn, zpow_neg, zpow_natCast]
  push_cast
  field_simp
  ring

theorem rounded_le_of_le (q : ℚ) (j : ℕ) (hj : j ≤ 52) (hq : |q| < (2 : ℚ) ^ (53 - (j : ℤ)))
    (k : ℤ) (h : q ≤ (k : ℚ) / 2 ^ j) :
    (F64.roundHalfEven (q / (2 : ℚ) ^ F64.ulpExp q) : ℚ) * (2 : ℚ) ^ F64.ulpExp q
      ≤ (k : ℚ) / 2 ^ j := by
  obtain ⟨m, hm⟩ := dyadic_div_ulp q j hj hq k
  have hpos : (0 : ℚ) < (2 : ℚ) ^ F64.ulpExp q := zpow_pos (by norm_num) _
  have h1 : q / (2 : ℚ) ^ F64.ulpExp q ≤ (m : ℚ) := by
    rw [← hm]; exact div_le_div_of_nonneg_right h hpos.le
  have h3 : (F64.roundHalfEven (q / (2 : ℚ) ^ F64.ulpExp q) : ℚ) ≤ (m : ℚ) := by
    exact_mod_cast roundHalfEven_le_of_le _ _ h1
  calc (F64.roundHalfEven (q / (2 : ℚ) ^ F64.ulpExp q) : ℚ) * (2 : ℚ) ^ F64.ulpExp q
      ≤ (m : ℚ) * (2 : ℚ) ^ F64.ulpExp q := mul_le_mul_of_nonneg_right h3 hpos.le
    _ = (k : ℚ) / 2 ^ j := by rw [← hm]; field_simp; ring

theorem le_rounded_of_le (q : ℚ) (j : ℕ) (hj : j ≤ 52) (hq : |q| < (2 : ℚ) ^ (53 - (j : ℤ)))
    (k : ℤ) (h : (k : ℚ) / 2 ^ j ≤ q) :
    (k : ℚ) / 2 ^ j
      ≤ (F64.roundHalfEven (q / (2 : ℚ) ^ F64.ulpExp q) : ℚ) * (2 : ℚ) ^ F64.ulpExp q := by
  obtain ⟨m, hm⟩ := dyadic_div_ulp q j hj hq k
  have hpos : (0 : ℚ) < (2 : ℚ) ^ F64.ulpExp q := zpow_pos (by norm_num) _
  have h1 : (m : ℚ) ≤ q / (2 : ℚ) ^ F64.ulpExp q := by
    rw [← hm]; exact div_le_div_of_nonneg_right h hpos.le
  have h3 : (m : ℚ) ≤ (F64.roundHalfEven (q / (2 : ℚ) ^ F64.ulpExp q) : ℚ) := by
    exact_mod_cast le_roundHalfEven_of_le _ _ h1
  calc (k : ℚ) / 2 ^ j = (m : ℚ) * (2 : ℚ) ^ F64.ulpExp q := by rw [← hm]; field_simp; ring
    _ ≤ (F64.roundHalfEven (q / (2 : ℚ) ^ F64.ulpExp q) : ℚ) * (2 : ℚ) ^ F64.ulpExp q :=
        mul_le_mul_of_nonneg_right h3 hpos.le

/-- Rounding keeps a value between the dyadic bounds that enclose it, and a
value below `2 ^ 53` in magnitude does not overflow. -/
theorem ofRat_between (q : ℚ) (j : ℕ) (hj : j ≤ 52) (hq : |q| < (2 : ℚ) ^ (53 - (j : ℤ)))
    (lo hi : ℤ) (hlo : (lo : ℚ) / 2 ^ j ≤ q) (hhi : q ≤ (hi : ℚ) / 2 ^ j) :
    ∃ r : ℚ, F64.ofRat q = F64.fin r ∧ (lo : ℚ) / 2 ^ j ≤ r ∧ r ≤ (hi : ℚ) / 2 ^ j := by
  have hq0 : |q| < (2 : ℚ) ^ (53 - ((0 : ℕ) : ℤ)) := by
    refine lt_of_lt_of_le hq ?_
    exact zpow_le_zpow_right₀ (by norm_num) (by push_cast; omega)
  have hb := abs_lt.mp hq0
  have h1 := rounded_le_of_le q 0 (by norm_num) hq0 ((2 : ℤ) ^ 53)
    (by push_cast; norm_num at hb ⊢; exact hb.2.le)
  have h2 := le_rounded_of_le q 0 (by norm_num) hq0 (-(2 : ℤ) ^ 53)
    (by push_cast; norm_num at hb ⊢; exact hb.1.le)
  refine ⟨_, ?_, le_rounded_of_le q j hj hq lo hlo, rounded_le_of_le q j hj hq hi hhi⟩
  unfold F64.ofRat
  simp only []
  rw [if_neg]
  rw [not_le]
  push_cast at h1 h2
  norm_num at h1 h2
  have : |(F64.roundHalfEven (q / (2 : ℚ) ^ F64.ulpExp q) : ℚ) * (2 : ℚ) ^ F64.ulpExp q|
      ≤ 9007199254740992 := abs_le.mpr ⟨h2, h1⟩
  refine lt_of_le_of_lt this ?_
  norm_num

/-- A dyadic value with at most 53 significant bits is its own rounding. -/
theorem ofRat_dyadic (k : ℤ) (j : ℕ) (hj : j ≤ 52)
    (hq : |(k : ℚ) / 2 ^ j| < (2 : ℚ) ^ (53 - (j : ℤ))) :
    F64.ofRat ((k : ℚ) / 2 ^ j) = F64.fin ((k : ℚ) / 2 ^ j) := by
  obtain ⟨r, hr, h1, h2⟩ := ofRat_between _ j hj hq k k le_rfl le_rfl
  rw [hr, le_antisymm h2 h1]

theorem ofRat_intCast (k : ℤ) (hk : |(k : ℚ)| < 9007199254740992) :
    F64.ofRat (k : ℚ) = F64.fin (k : ℚ) := by
  have := ofRat_dyadic k 0 (by norm_num) (by norm_num; exact hk)
  simpa using this

theorem toUint16_fin (r : ℚ) (h0 : 0 ≤ r) (h1 : r ≤ 65535) :
    F64.toUint16 (F64.fin r) = ⌊r⌋₊ := by
  have hf0 : 0 ≤ ⌊r⌋ := Int.floor_nonneg.mpr h0
  have hf1 : ⌊r⌋ ≤ 65535 := by
    have : (⌊r⌋ : ℚ) ≤ 65535 := (Int.floor_le r).trans h1
    exact_mod_cast this
  have ht : F64.truncQ r = ⌊r⌋ := by unfold F64.truncQ; rw [if_pos h0]
  show (if -(2 : ℤ) ^ 31 ≤ F64.truncQ r ∧ F64.truncQ r < (2 : ℤ) ^ 31
    then (F64.truncQ r % 65536).toNat else 0) = ⌊r⌋₊
  rw [ht, if_pos ⟨by omega, by omega⟩, Int.emod_eq_of_lt hf0 (by omega)]
  rfl

/-! ## Frame lemmas -/

theorem setTransition_effects (l : Light) (t : ℤ) : (setTransition l t).effects = l.effects := rfl
theorem setTransition_Batch (l : Light) (t : ℤ) : (setTransition l t).Batch = l.Batch := rfl

theorem applyTransition_effects (l : Light) (p : Json) :
    (applyTransition l p).effects = l.effects := by
  unfold applyTransition
  split <;> rfl

theorem applyTransition_Batch (l : Light) (p : Json) :
    (applyTransition l p).Batch = l.Batch := by
  unfold applyTransition
  split <;> rfl

theorem turnOnOff_events (l : Light) (b : Bool) : (turnOnOff l b).events = l.events := by
  cases b <;> simp [turnOnOff, Light.events, Effect.isEvent]

theorem turnOnOff_Batch (l : Light) (b : Bool) : (turnOnOff l b).Batch = l.Batch := by
  cases b <;> rfl

theorem turnOnOff_LightState (l : Light) (b : Bool) :
    (turnOnOff l b).LightState = l.LightState := by
  cases b <;> rfl

theorem SendEvent_events (l : Light) (c e : String) (b : Json) :
    (SendEvent l c e b).events = l.events ++ [Effect.SendEvent c e b] := by
  simp [SendEvent, Light.events, Effect.isEvent]

/-- Inside a batch `setColor` in mode "hue" sends nothing. -/
theorem setColor_hue_in_batch (l : Light) (p : Json) (h : l.Batch = true) :
    (setColor l p "hue").effects = l.effects ∧ (setColor l p "hue").Batch = true := by
  have hb := applyTransition_Batch l p
  have he := applyTransition_effects l p
  simp [setColor, refreshLightState, hb, he, h]

theorem GetJsonLightState_congr (l l2 : Light) (h : l.LightState = l2.LightState) :
    GetJsonLightState l = GetJsonLightState l2 := by
  unfold GetJsonLightState
  rw [h]

theorem EndBatch_events (l : Light) :
    (EndBatch l).events
        = l.events ++ [Effect.SendEvent "on-off" "state" (GetJsonLightState (EndBatch l))]
      ∧ (EndBatch l).Batch = false ∧ (EndBatch l).LightState = l.LightState := by
  refine ⟨?_, rfl, rfl⟩
  unfold EndBatch
  simp only []
  rw [SendEvent_events]
  rfl

/-- The batch body: everything `setBatchColor` does before `EndBatch` sends no
event. -/
theorem setBatchColor_body (l : Light) (payload : Json) :
    ∃ l4 : Light, setBatchColor l payload = EndBatch l4 ∧ l4.events = l.events := by
  obtain ⟨he, _⟩ := setColor_hue_in_batch (StartBatch l) (payload.Get "color") rfl
  have h1 : (setColor (StartBatch l) (payload.Get "color") "hue").events = l.events := by
    unfold Light.events; rw [he]; rfl
  unfold setBatchColor
  simp only []
  refine ⟨_, rfl, ?_⟩
  split <;> split <;> split <;>
    simp only [Light.events, setTransition_effects, setBrightness] <;>
    first
      | exact h1
      | (rw [← Light.events, turnOnOff_events]; exact h1)

theorem setBatchColor_events (l : Light) (payload : Json) :
    (setBatchColor l payload).events
        = l.events ++ [Effect.SendEvent "on-off" "state" (GetJsonLightState (setBatchColor l payload))]
      ∧ (setBatchColor l payload).Batch = false := by
  obtain ⟨l4, h4, he⟩ := setBatchColor_body l payload
  have := EndBatch_events l4
  rw [h4, this.1, he]
  exact ⟨rfl, this.2.1⟩

theorem GetJsonLightState_Get (l : Light) :
    (GetJsonLightState l).Get "on" = jsonOfBool l.LightState.On
    ∧ (GetJsonLightState l).Get "bri" = jsonOfUint16 l.LightState.Brightness
    ∧ (GetJsonLightState l).Get "sat" = jsonOfUint16 l.LightState.Saturation
    ∧ (GetJsonLightState l).Get "hue" = jsonOfUint16 l.LightState.Hue
    ∧ (GetJsonLightState l).Get "ct" = jsonOfUint16 l.LightState.ColorTemp
    ∧ (GetJsonLightState l).Get "transitionTime" = jsonOfUint16 l.LightState.TransitionTime
    ∧ (GetJsonLightState l).Get "xy" = jsonOfFloats l.LightState.XY := by
  simp [GetJsonLightState, Json.New, Json.Set, Json.Get, List.lookup]

theorem applyTransition_fields (l : Light) (p : Json) :
    (applyTransition l p).LightState.On = l.LightState.On
    ∧ (applyTransition l p).LightState.Brightness = l.LightState.Brightness
    ∧ (applyTransition l p).LightState.Hue = l.LightState.Hue
    ∧ (applyTransition l p).LightState.Saturation = l.LightState.Saturation
    ∧ (applyTransition l p).LightState.XY = l.LightState.XY
    ∧ (applyTransition l p).LightState.ColorTemp = l.LightState.ColorTemp := by
  unfold applyTransition
  split <;> exact ⟨rfl, rfl, rfl, rfl, rfl, rfl⟩

/-- The light state after `setColor` in mode "hue", whatever the batching flag. -/
theorem setColor_hue_fields (l : Light) (p : Json) :
    (setColor l p "hue").LightState.On = some true
    ∧ (setColor l p "hue").LightState.Brightness = l.LightState.Brightness
    ∧ (setColor l p "hue").LightState.Hue
        = some (F64.toUint16 (F64.mul (p.Get "hue").Float64.1 (F64.ofRat MaxUint16)))
    ∧ (setColor l p "hue").LightState.Saturation
        = some (F64.toUint16 (F64.mul (p.Get "saturation").Float64.1 (F64.ofRat MaxUint16)))
    ∧ (setColor l p "hue").LightState.XY = l.LightState.XY
    ∧ (setColor l p "hue").LightState.ColorTemp = l.LightState.ColorTemp
    ∧ (setColor l p "hue").LightState.TransitionTime
        = (applyTransition l p).LightState.TransitionTime := by
  obtain ⟨h1, h2, h3, h4, h5, h6⟩ := applyTransition_fields l p
  have hb := applyTransition_Batch l p
  cases hB : l.Batch <;>
    simp [setColor, refreshLightState, SendEvent, hb, hB, h2, h5, h6]

theorem setBatchColor_fields (l : Light) (payload : Json) :
    (setBatchColor l payload).LightState.On = some true
    ∧ (setBatchColor l payload).LightState.Brightness = l.LightState.Brightness
    ∧ (setBatchColor l payload).LightState.Hue
        = some (F64.toUint16 (F64.mul ((payload.Get "color").Get "hue").Float64.1
            (F64.ofRat MaxUint16)))
    ∧ (setBatchColor l payload).LightState.Saturation
        = some (F64.toUint16 (F64.mul ((payload.Get "color").Get "saturation").Float64.1
            (F64.ofRat MaxUint16)))
    ∧ (setBatchColor l payload).LightState.XY = l.LightState.XY
    ∧ (setBatchColor l payload).LightState.ColorTemp = l.LightState.ColorTemp := by
  obtain ⟨h1, h2, h3, h4, h5, h6, _⟩ := setColor_hue_fields (StartBatch l) (payload.Get "color")
  unfold setBatchColor
  simp only []
  split <;> split <;> split <;>
    simp only [EndBatch, SendEvent, setBrightness, setTransition, turnOnOff_LightState] <;>
    exact ⟨h1, h2, h3, h4, h5, h6⟩

/-- The 16-bit value stored for a float in `[0, 1]`: the integer part of the
float64 product with 65535. -/
theorem scale16 (h : ℚ) (h0 : 0 ≤ h) (h1 : h ≤ 1) :
    F64.toUint16 (F64.mul (F64.fin h) (F64.ofRat MaxUint16))
        = ⌊(F64.ofRat (h * 65535)).toRat⌋₊
      ∧ ⌊h * 65535⌋₊ ≤ ⌊(F64.ofRat (h * 65535)).toRat⌋₊
      ∧ ⌊(F64.ofRat (h * 65535)).toRat⌋₊ ≤ ⌈h * 65535⌉₊
      ∧ ⌊(F64.ofRat (h * 65535)).toRat⌋₊ ≤ 65535 := by
  have hM : F64.ofRat MaxUint16 = F64.fin 65535 := by
    have := ofRat_intCast 65535 (by norm_num)
    simpa [MaxUint16] using this
  have hq0 : 0 ≤ h * 65535 := by positivity
  have hq1 : h * 65535 ≤ 65535 := by nlinarith
  have habs : |h * 65535| < (2 : ℚ) ^ (53 - ((0 : ℕ) : ℤ)) := by
    rw [abs_of_nonneg hq0]; norm_num; linarith
  obtain ⟨r, hr, hlo, hhi⟩ := ofRat_between (h * 65535) 0 (by norm_num) habs
    ⌊h * 65535⌋ ⌈h * 65535⌉ (by simpa using Int.floor_le _) (by simpa using Int.le_ceil _)
  obtain ⟨r2, hr2, hlo2, hhi2⟩ := ofRat_between (h * 65535) 0 (by norm_num) habs
    0 65535 (by simpa using hq0) (by simpa using hq1)
  rw [hr] at hr2
  cases hr2
  simp only [pow_zero, div_one, Int.cast_zero, Int.cast_ofNat] at hlo hhi hlo2 hhi2
  rw [hM]
  show F64.toUint16 (F64.ofRat (h * 65535)) = _ ∧ _
  rw [hr]
  refine ⟨toUint16_fin r hlo2 hhi2, ?_, ?_, ?_⟩
  · show ⌊h * 65535⌋₊ ≤ ⌊r⌋₊
    refine Nat.le_floor ?_
    rw [natCast_floor_eq_intCast_floor hq0]
    exact hlo
  · show ⌊r⌋₊ ≤ ⌈h * 65535⌉₊
    refine Nat.floor_le_of_le ?_
    rw [natCast_ceil_eq_intCast_ceil hq0]
    exact hhi
  · show ⌊r⌋₊ ≤ 65535
    exact Nat.floor_le_of_le (by exact_mod_cast hhi2)

theorem scale16_half : F64.toUint16 (F64.mul (F64.fin (1 / 2)) (F64.ofRat MaxUint16)) = 32767 := by
  have hd := ofRat_dyadic 65535 1 (by norm_num) (by norm_num [abs_of_pos])
  have hq : (1 / 2 : ℚ) * 65535 = ((65535 : ℤ) : ℚ) / 2 ^ 1 := by norm_num
  rw [(scale16 (1 / 2) (by norm_num) (by norm_num)).1, hq, hd]
  show ⌊((65535 : ℤ) : ℚ) / 2 ^ 1⌋₊ = 32767
  rw [Nat.floor_eq_iff (by norm_num)]
  norm_num

theorem scale16_one : F64.toUint16 (F64.mul (F64.fin 1) (F64.ofRat MaxUint16)) = 65535 := by
  have hd := ofRat_intCast 65535 (by norm_num)
  have hq : (1 : ℚ) * 65535 = ((65535 : ℤ) : ℚ) := by norm_num
  rw [(scale16 1 (by norm_num) (by norm_num)).1, hq, hd]
  show ⌊((65535 : ℤ) : ℚ)⌋₊ = 65535
  rw [Nat.floor_eq_iff (by norm_num)]
  norm_num

/-- The light state after `setColor` in mode "xy", whatever the batching flag. -/
theorem setColor_xy_fields (l : Light) (p : Json) :
    (setColor l p "xy").LightState.XY = some [(p.Get "x").Float64.1, (p.Get "y").Float64.1]
    ∧ (setColor l p "xy").LightState.Hue = none
    ∧ (setColor l p "xy").LightState.Saturation = none
    ∧ (setColor l p "xy").LightState.ColorTemp = none
    ∧ (setColor l p "xy").LightState.On = l.LightState.On
    ∧ (setColor l p "xy").LightState.Brightness = l.LightState.Brightness
    ∧ (setColor l p "xy").LightState.TransitionTime
        = (applyTransition l p).LightState.TransitionTime := by
  obtain ⟨h1, h2, h3, h4, h5, h6⟩ := applyTransition_fields l p
  have hb := applyTransition_Batch l p
  cases hB : l.Batch <;>
    simp [setColor, refreshLightState, SendEvent, hb, hB, h1, h2]

/-- The light state after `setColor` in mode "temperature", whatever the
batching flag. -/
theorem setColor_temperature_fields (l : Light) (p : Json) :
    (setColor l p "temperature").LightState.ColorTemp
        = some (F64.toUint16 (F64.floor
            (F64.div (F64.ofRat 1000000) (p.Get "temperature").Float64.1)))
    ∧ (setColor l p "temperature").LightState.XY = none
    ∧ (setColor l p "temperature").LightState.Hue = none
    ∧ (setColor l p "temperature").LightState.Saturation = none
    ∧ (setColor l p "temperature").LightState.On = l.LightState.On
    ∧ (setColor l p "temperature").LightState.Brightness = l.LightState.Brightness
    ∧ (setColor l p "temperature").LightState.TransitionTime
        = (applyTransition l p).LightState.TransitionTime := by
  obtain ⟨h1, h2, h3, h4, h5, h6⟩ := applyTransition_fields l p
  have hb := applyTransition_Batch l p
  cases hB : l.Batch <;>
    simp [setColor, refreshLightState, SendEvent, hb, hB, h1, h2]

/-- Outside a batch `setColor` in one of the three modes sends one event on the
color channel, carrying the snapshot of the state it leaves. -/
theorem setColor_events (l : Light) (p : Json) (mode : String) (hB : l.Batch = false)
    (hm : mode = "hue" ∨ mode = "xy" ∨ mode = "temperature") :
    (setColor l p mode).effects
        = l.effects ++ [Effect.SendEvent "color" "state" (GetJsonLightState (setColor l p mode))]
      ∧ (setColor l p mode).Batch = false := by
  have hb := applyTransition_Batch l p
  have he := applyTransition_effects l p
  rcases hm with rfl | rfl | rfl <;>
    simp [setColor, refreshLightState, SendEvent, hb, he, hB, GetJsonLightState]

theorem div_fin_fin (a b : ℚ) (hb : b ≠ 0) :
    F64.div (F64.fin a) (F64.fin b) = F64.ofRat (a / b) := by
  show (if b = 0 then _ else F64.ofRat (a / b)) = _
  rw [if_neg hb]

theorem truncQ_intCast (k : ℤ) : F64.truncQ (k : ℚ) = k := by
  unfold F64.truncQ
  split <;> simp

/-- The conversion of an integer value within the signed 32-bit range keeps
its low 16 bits. -/
theorem toUint16_intCast (k : ℤ) (h0 : -(2 : ℤ) ^ 31 ≤ k) (h1 : k < (2 : ℤ) ^ 31) :
    F64.toUint16 (F64.fin (k : ℚ)) = (k % 65536).toNat := by
  show (if -(2 : ℤ) ^ 31 ≤ F64.truncQ (k : ℚ) ∧ F64.truncQ (k : ℚ) < (2 : ℤ) ^ 31
    then (F64.truncQ (k : ℚ) % 65536).toNat else 0) = _
  rw [truncQ_intCast, if_pos ⟨h0, h1⟩]

/-- The constant 1000000 is a float64. -/
theorem ofRat_million : F64.ofRat 1000000 = F64.fin 1000000 := by
  have := ofRat_intCast 1000000 (by norm_num)
  simpa using this

/-- The 16-bit value stored for a temperature `t` with `1000000 / t` within
16 bits: the floor of the float64 quotient. -/
theorem temp16 (t : ℚ) (ht : 0 < t) (hfit : 1000000 / t ≤ 65535) :
    F64.toUint16 (F64.floor (F64.div (F64.ofRat 1000000) (F64.fin t)))
        = ⌊(F64.ofRat (1000000 / t)).toRat⌋₊
      ∧ ⌊1000000 / t⌋₊ ≤ ⌊(F64.ofRat (1000000 / t)).toRat⌋₊
      ∧ ⌊(F64.ofRat (1000000 / t)).toRat⌋₊ ≤ ⌈1000000 / t⌉₊
      ∧ ⌊(F64.ofRat (1000000 / t)).toRat⌋₊ ≤ 65535 := by
  have hq0 : 0 ≤ 1000000 / t := by positivity
  have habs : |1000000 / t| < (2 : ℚ) ^ (53 - ((0 : ℕ) : ℤ)) := by
    rw [abs_of_nonneg hq0]; norm_num; linarith
  obtain ⟨r, hr, hlo, hhi⟩ := ofRat_between (1000000 / t) 0 (by norm_num) habs
    ⌊1000000 / t⌋ ⌈1000000 / t⌉ (by simpa using Int.floor_le _) (by simpa using Int.le_ceil _)
  obtain ⟨r2, hr2, hlo2, hhi2⟩ := ofRat_between (1000000 / t) 0 (by norm_num) habs
    0 65535 (by simpa using hq0) (by simpa using hfit)
  rw [hr] at hr2
  cases hr2
  simp only [pow_zero, div_one, Int.cast_zero, Int.cast_ofNat] at hlo hhi hlo2 hhi2
  have hdiv : F64.div (F64.ofRat 1000000) (F64.fin t) = F64.fin r := by
    rw [ofRat_million]
    show (if t = 0 then _ else F64.ofRat (1000000 / t)) = _
    rw [if_neg ht.ne', hr]
  have hfl0 : (0 : ℚ) ≤ ((⌊r⌋ : ℤ) : ℚ) := by exact_mod_cast Int.floor_nonneg.mpr hlo2
  have hfl1 : ((⌊r⌋ : ℤ) : ℚ) ≤ 65535 := (Int.floor_le r).trans hhi2
  rw [hdiv, hr]
  show F64.toUint16 (F64.fin ((⌊r⌋ : ℤ) : ℚ)) = ⌊r⌋₊ ∧ ⌊1000000 / t⌋₊ ≤ ⌊r⌋₊
    ∧ ⌊r⌋₊ ≤ ⌈1000000 / t⌉₊ ∧ ⌊r⌋₊ ≤ 65535
  refine ⟨?_, ?_, ?_, ?_⟩
  · rw [toUint16_fin _ hfl0 hfl1]
    rw [← natCast_floor_eq_intCast_floor hlo2, Nat.floor_natCast]
  · refine Nat.le_floor ?_
    rw [natCast_floor_eq_intCast_floor hq0]
    exact hlo
  · refine Nat.floor_le_of_le ?_
    rw [natCast_ceil_eq_intCast_ceil hq0]
    exact hhi
  · exact Nat.floor_le_of_le (by exact_mod_cast hhi2)

/-- The event form of `setColor_events`. -/
theorem setColor_emits (l : Light) (p : Json) (mode : String) (hB : l.Batch = false)
    (hm : mode = "hue" ∨ mode = "xy" ∨ mode = "temperature") :
    (setColor l p mode).events
        = l.events ++ [Effect.SendEvent "color" "state" (GetJsonLightState (setColor l p mode))] := by
  unfold Light.events
  rw [(setColor_events l p mode hB hm).1]
  simp [Effect.isEvent]

theorem ofRat_zero : F64.ofRat ((0 : ℤ) : ℚ) = F64.fin 0 := by
  have := ofRat_intCast 0 (by norm_num)
  simpa using this

/-! ## Lemmas on command handling -/

theorem scale16_zero : F64.toUint16 (F64.mul (F64.fin 0) (F64.ofRat MaxUint16)) = 0 := by
  rw [(scale16 0 le_rfl zero_le_one).1]
  have h0 : (0 : ℚ) * 65535 = ((0 : ℤ) : ℚ) := by norm_num
  rw [h0, ofRat_zero]
  show ⌊(0 : ℚ)⌋₊ = 0
  exact Nat.floor_zero

/-- The fields that `setColor` never assigns, and those it assigns only in
some modes, whatever the mode. -/
theorem setColor_frame (l : Light) (p : Json) (mode : String) :
    (setColor l p mode).LightState.Brightness = l.LightState.Brightness
    ∧ ((mode = "xy" ∨ mode = "temperature") →
        (setColor l p mode).LightState.On = l.LightState.On)
    ∧ ((p.Get "transition").Int.2 = false →
        (setColor l p mode).LightState.TransitionTime = l.LightState.TransitionTime)
    ∧ (setColor l p mode).Batch = l.Batch := by
  have hT : (p.Get "transition").Int.2 = false → applyTransition l p = l := by
    intro h
    unfold applyTransition
    split
    · next t heq => rw [heq] at h; cases h
    · rfl
  obtain ⟨h1, h2, h3, h4, h5, h6⟩ := applyTransition_fields l p
  have hb := applyTransition_Batch l p
  by_cases m1 : mode = "hue"
  · subst m1
    obtain ⟨_, f2, _, _, _, _, f7⟩ := setColor_hue_fields l p
    refine ⟨f2, ?_, ?_, ?_⟩
    · intro h; rcases h with h | h <;> exact absurd h (by decide)
    · intro h; rw [f7, hT h]
    · cases hB : l.Batch <;> simp [setColor, refreshLightState, SendEvent, hb, hB]
  by_cases m2 : mode = "xy"
  · subst m2
    obtain ⟨_, _, _, _, f5, f6, f7⟩ := setColor_xy_fields l p
    refine ⟨f6, fun _ => f5, ?_, ?_⟩
    · intro h; rw [f7, hT h]
    · cases hB : l.Batch <;> simp [setColor, refreshLightState, SendEvent, hb, hB]
  by_cases m3 : mode = "temperature"
  · subst m3
    obtain ⟨_, _, _, _, f5, f6, f7⟩ := setColor_temperature_fields l p
    refine ⟨f6, fun _ => f5, ?_, ?_⟩
    · intro h; rw [f7, hT h]
    · cases hB : l.Batch <;> simp [setColor, refreshLightState, SendEvent, hb, hB]
  have hid : setColor l p mode = l := by
    simp only [setColor, refreshLightState]
    rw [if_neg m1, if_neg m2, if_neg m3]
  rw [hid]
  exact ⟨rfl, fun _ => rfl, fun _ => rfl, rfl⟩

/-- Applying `setColor` a second time with the same payload and mode leaves
the light state where the first application put it. -/
theorem setColor_idem (l : Light) (p : Json) (mode : String) :
    (setColor (setColor l p mode) p mode).LightState = (setColor l p mode).LightState := by
  by_cases m1 : mode = "hue"
  · subst m1
    rcases hI : (p.Get "transition").Int with ⟨t, ok⟩
    cases ok <;> cases hB : l.Batch <;>
      simp [setColor, applyTransition, setTransition, refreshLightState, SendEvent, hI, hB]
  by_cases m2 : mode = "xy"
  · subst m2
    rcases hI : (p.Get "transition").Int with ⟨t, ok⟩
    cases ok <;> cases hB : l.Batch <;>
      simp [setColor, applyTransition, setTransition, refreshLightState, SendEvent, hI, hB]
  by_cases m3 : mode = "temperature"
  · subst m3
    rcases hI : (p.Get "transition").Int with ⟨t, ok⟩
    cases ok <;> cases hB : l.Batch <;>
      simp [setColor, applyTransition, setTransition, refreshLightState, SendEvent, hI, hB]
  have hid : ∀ x : Light, setColor x p mode = x := by
    intro x
    simp only [setColor, refreshLightState]
    rw [if_neg m1, if_neg m2, if_neg m3]
  rw [hid, hid]

theorem colorHandler_Batch (l : Light) (method : String) (p : Json) :
    (colorHandler l method p).Batch = l.Batch := by
  unfold colorHandler
  split
  · rfl
  · split
    · exact (setColor_frame l p _).2.2.2
    · rfl

theorem onOffHandler_Batch (l : Light) (method : String) (p : Json) :
    (onOffHandler l method p).Batch = l.Batch := by
  unfold onOffHandler
  split_ifs <;> first | rfl | exact turnOnOff_Batch _ _

theorem brightnessHandler_eq (l : Light) (method : String) (p : Json) :
    brightnessHandler l method p = l := by
  unfold brightnessHandler setBrightness
  split_ifs <;> rfl

theorem batchHandler_Batch (l : Light) (method : String) (p : Json) (h : l.Batch = false) :
    (batchHandler l method p).Batch = false := by
  unfold batchHandler
  split
  · exact (setBatchColor_events l _).2
  · exact h

theorem handle_Batch (l : Light) (c : Command) (h : l.Batch = false) :
    (handle l c).Batch = false := by
  unfold handle
  split
  · rw [onOffHandler_Batch, h]
  · rw [brightnessHandler_eq, h]
  · rw [colorHandler_Batch, h]
  · exact batchHandler_Batch l _ _ h

theorem run_Batch (cmds : List Command) (l : Light) (h : l.Batch = false) :
    (run l cmds).Batch = false := by
  induction cmds generalizing l with
  | nil => exact h
  | cons c cs ih => exact ih (handle l c) (handle_Batch l c h)

theorem run_append (l : Light) (xs ys : List Command) :
    run l (xs ++ ys) = run (run l xs) ys := by
  simp [run, List.foldl_append]

/-! ## Claims -/

/-- C1: handling `setBatch` emits exactly one event whatever the starting state
and the payload: the events after the call are the events before it followed
by one "state" event on the on/off channel whose body is the snapshot of the
final light state, and the batching flag is false afterwards.  The handler of
the batching channel passes element 0 of its payload to `setBatchColor`. -/
theorem batch_emits_one_event (l : Light) (payload : Json) :
    (setBatchColor l payload).events
        = l.events ++
          [Effect.SendEvent "on-off" "state" (GetJsonLightState (setBatchColor l payload))]
      ∧ (setBatchColor l payload).Batch = false
      ∧ batchHandler l "setBatch" (Json.arr [payload]) = setBatchColor l payload :=
  ⟨(setBatchColor_events l payload).1, (setBatchColor_events l payload).2, rfl⟩

/-- C2, counterexample: on a fresh light the batch with hue 0.5, saturation
1.0, brightness 1.0 and on-off false emits one snapshot whose `on` is true
(the payload says false) and whose `bri` is 0 (the payload says 1.0, that is
65535). -/
theorem batch_keeps_on_and_brightness :
    (batchSample.Get "on-off").Bool = (false, true)
      ∧ (batchSample.Get "brightness").Float64 = (F64.fin 1, true)
      ∧ (setBatchColor NewLight batchSample).events
          = [Effect.SendEvent "on-off" "state"
              (GetJsonLightState (setBatchColor NewLight batchSample))]
      ∧ (GetJsonLightState (setBatchColor NewLight batchSample)).Get "on" = Json.bool true
      ∧ (GetJsonLightState (setBatchColor NewLight batchSample)).Get "bri" = Json.int 0 := by
  obtain ⟨hon, hbri, _⟩ := GetJsonLightState_Get (setBatchColor NewLight batchSample)
  obtain ⟨fon, fbri, _⟩ := setBatchColor_fields NewLight batchSample
  refine ⟨rfl, rfl, (setBatchColor_events NewLight batchSample).1, ?_, ?_⟩
  · rw [hon, fon]; rfl
  · rw [hbri, fbri]; rfl

/-- C2, amended: for a batch payload carrying a brightness `b`, an on-off value
`v` and a color with hue `h` and saturation `s` in `[0, 1]`, the one snapshot
emitted at the end of the batch has `on` true whatever `v` is, `bri` as it was
before the batch whatever `b` is, and `hue` / `sat` equal to the integer part
of the float64 products `h * 65535` and `s * 65535`. -/
theorem batch_snapshot (l : Light) (payload : Json) (h s b : ℚ) (v : Bool)
    (hh : ((payload.Get "color").Get "hue").Float64 = (F64.fin h, true))
    (hs : ((payload.Get "color").Get "saturation").Float64 = (F64.fin s, true))
    (_hb : (payload.Get "brightness").Float64 = (F64.fin b, true))
    (_hv : (payload.Get "on-off").Bool = (v, true))
    (h01 : 0 ≤ h ∧ h ≤ 1) (s01 : 0 ≤ s ∧ s ≤ 1) (_b01 : 0 ≤ b ∧ b ≤ 1) :
    ∃ snap : Json,
      (setBatchColor l payload).events = l.events ++ [Effect.SendEvent "on-off" "state" snap]
      ∧ snap.Get "on" = Json.bool true
      ∧ snap.Get "bri" = jsonOfUint16 l.LightState.Brightness
      ∧ snap.Get "hue" = Json.int (⌊(F64.ofRat (h * 65535)).toRat⌋₊ : ℕ)
      ∧ snap.Get "sat" = Json.int (⌊(F64.ofRat (s * 65535)).toRat⌋₊ : ℕ) := by
  obtain ⟨hon, hbri, hsat, hhue, _⟩ := GetJsonLightState_Get (setBatchColor l payload)
  obtain ⟨fon, fbri, fhue, fsat, _⟩ := setBatchColor_fields l payload
  refine ⟨_, (setBatchColor_events l payload).1, ?_, ?_, ?_, ?_⟩
  · rw [hon, fon]; rfl
  · rw [hbri, fbri]
  · rw [hhue, fhue, hh, (scale16 h h01.1 h01.2).1]; rfl
  · rw [hsat, fsat, hs, (scale16 s s01.1 s01.2).1]; rfl

/-- Witness for `batch_snapshot`: the sample batch on a fresh light. -/
theorem batch_snapshot_witness :
    (((batchSample.Get "color").Get "hue").Float64 = (F64.fin (1 / 2), true)
      ∧ ((batchSample.Get "color").Get "saturation").Float64 = (F64.fin 1, true)
      ∧ (batchSample.Get "brightness").Float64 = (F64.fin 1, true)
      ∧ (batchSample.Get "on-off").Bool = (false, true))
    ∧ ∃ snap : Json,
      (setBatchColor NewLight batchSample).events
          = NewLight.events ++ [Effect.SendEvent "on-off" "state" snap]
      ∧ snap.Get "on" = Json.bool true
      ∧ snap.Get "bri" = jsonOfUint16 NewLight.LightState.Brightness
      ∧ snap.Get "hue" = Json.int (⌊(F64.ofRat ((1 / 2 : ℚ) * 65535)).toRat⌋₊ : ℕ)
      ∧ snap.Get "sat" = Json.int (⌊(F64.ofRat ((1 : ℚ) * 65535)).toRat⌋₊ : ℕ) :=
  ⟨⟨rfl, rfl, rfl, rfl⟩,
    batch_snapshot NewLight batchSample (1 / 2) 1 1 false rfl rfl rfl rfl
      (by norm_num) (by norm_num) (by norm_num)⟩

/-- C3, failing input: on a fresh light exactly one color representation is
populated, and still one after the xy command; the hue command that follows
stores hue and saturation and leaves xy in place, so two representations are
populated: the "hue" case of `setColor` lacks the clearing that the "xy" and
"temperature" cases do. -/
theorem hue_after_xy_keeps_xy :
    populatedRepresentations NewLight.LightState = 1
      ∧ populatedRepresentations (colorHandler NewLight "set" xySample).LightState = 1
      ∧ populatedRepresentations
          (colorHandler (colorHandler NewLight "set" xySample) "set" hueHalf).LightState = 2
      ∧ (colorHandler (colorHandler NewLight "set" xySample) "set" hueHalf).LightState.XY
          = some [F64.fin (5 / 16), F64.fin (3 / 8)]
      ∧ (colorHandler (colorHandler NewLight "set" xySample) "set" hueHalf).LightState.Hue
          = some 32767 := by
  have hxy : colorHandler NewLight "set" xySample = setColor NewLight xySample "xy" := rfl
  have hB : (setColor NewLight xySample "xy").Batch = false := rfl
  have hX : (setColor NewLight xySample "xy").LightState.XY
      = some [F64.fin (5 / 16), F64.fin (3 / 8)] := rfl
  have hC : (setColor NewLight xySample "xy").LightState.ColorTemp = none := rfl
  have h2 : colorHandler (setColor NewLight xySample "xy") "set" hueHalf
      = setColor (setColor NewLight xySample "xy") hueHalf "hue" := by
    unfold colorHandler
    rw [hB]
    rfl
  obtain ⟨_, _, fh, fs, fx, fc, _⟩ := setColor_hue_fields (setColor NewLight xySample "xy") hueHalf
  rw [hxy, h2]
  refine ⟨rfl, rfl, ?_, ?_, ?_⟩
  · unfold populatedRepresentations
    rw [fh, fs, fx, fc, hX, hC]
    rfl
  · rw [fx, hX]
  · rw [fh]
    exact congrArg some scale16_half

/-- C4, counterexample: on a fresh light the command with hue 0.5 and
saturation 1.0 stores hue 32767, saturation 65535 and on = true, while
0.5 * 65535 = 32767.5 rounds to 32768. -/
theorem hue_half_is_truncated :
    (colorHandler NewLight "set" hueHalf).LightState.Hue = some 32767
      ∧ (colorHandler NewLight "set" hueHalf).LightState.Saturation = some 65535
      ∧ (colorHandler NewLight "set" hueHalf).LightState.On = some true
      ∧ round ((1 / 2 : ℚ) * 65535) = 32768 := by
  have h1 : colorHandler NewLight "set" hueHalf = setColor NewLight hueHalf "hue" := rfl
  obtain ⟨fo, _, fh, fs, _⟩ := setColor_hue_fields NewLight hueHalf
  rw [h1]
  refine ⟨?_, ?_, fo, ?_⟩
  · rw [fh]; exact congrArg some scale16_half
  · rw [fs]; exact congrArg some scale16_one
  · rw [round_eq, Int.floor_eq_iff]
    norm_num

/-- C4, amended: for a "hue" payload with hue `h` and saturation `s` in
`[0, 1]`, `setColor` stores as hue and saturation the integer part of the
float64 products `h * 65535` and `s * 65535` (the conversion truncates, it
does not round to nearest), each between the floor and the ceiling of the
exact product, and sets on = true. -/
theorem setColor_hue_truncates (l : Light) (payload : Json) (h s : ℚ)
    (hh : (payload.Get "hue").Float64 = (F64.fin h, true))
    (hs : (payload.Get "saturation").Float64 = (F64.fin s, true))
    (h01 : 0 ≤ h ∧ h ≤ 1) (s01 : 0 ≤ s ∧ s ≤ 1) :
    (setColor l payload "hue").LightState.Hue = some ⌊(F64.ofRat (h * 65535)).toRat⌋₊
      ∧ (setColor l payload "hue").LightState.Saturation
          = some ⌊(F64.ofRat (s * 65535)).toRat⌋₊
      ∧ (setColor l payload "hue").LightState.On = some true
      ∧ (⌊h * 65535⌋₊ ≤ ⌊(F64.ofRat (h * 65535)).toRat⌋₊
          ∧ ⌊(F64.ofRat (h * 65535)).toRat⌋₊ ≤ ⌈h * 65535⌉₊)
      ∧ (⌊s * 65535⌋₊ ≤ ⌊(F64.ofRat (s * 65535)).toRat⌋₊
          ∧ ⌊(F64.ofRat (s * 65535)).toRat⌋₊ ≤ ⌈s * 65535⌉₊) := by
  obtain ⟨fo, _, fh, fs, _⟩ := setColor_hue_fields l payload
  obtain ⟨a1, a2, a3, _⟩ := scale16 h h01.1 h01.2
  obtain ⟨b1, b2, b3, _⟩ := scale16 s s01.1 s01.2
  refine ⟨?_, ?_, fo, ⟨a2, a3⟩, ⟨b2, b3⟩⟩
  · rw [fh, hh, a1]
  · rw [fs, hs, b1]

/-- Witness for `setColor_hue_truncates`: hue 0.5 and saturation 1.0 on a
fresh light. -/
theorem setColor_hue_truncates_witness :
    ((hueHalf.Get "hue").Float64 = (F64.fin (1 / 2), true)
      ∧ (hueHalf.Get "saturation").Float64 = (F64.fin 1, true)
      ∧ ((0 : ℚ) ≤ 1 / 2 ∧ (1 / 2 : ℚ) ≤ 1) ∧ ((0 : ℚ) ≤ 1 ∧ (1 : ℚ) ≤ 1))
    ∧ (setColor NewLight hueHalf "hue").LightState.Hue
        = some ⌊(F64.ofRat ((1 / 2 : ℚ) * 65535)).toRat⌋₊
    ∧ (setColor NewLight hueHalf "hue").LightState.On = some true :=
  ⟨⟨rfl, rfl, by norm_num, by norm_num⟩,
    (setColor_hue_truncates NewLight hueHalf (1 / 2) 1 rfl rfl (by norm_num) (by norm_num)).1,
    (setColor_hue_truncates NewLight hueHalf (1 / 2) 1 rfl rfl (by norm_num) (by norm_num)).2.2.1⟩

/-- C5, counterexample: on a fresh light the temperature command with T = 1
stores colorTemperature 16960, the low 16 bits of 1000000 (whatever the
platform the stored value is a `uint16`), while floor(1000000 / 1) = 1000000
does not fit 16 bits. -/
theorem temperature_one_overflows :
    (tempOne.Get "temperature").Float64 = (F64.fin 1, true)
      ∧ (colorHandler NewLight "set" tempOne).LightState.ColorTemp = some 16960
      ∧ ⌊(1000000 : ℚ) / 1⌋₊ = 1000000 := by
  have hone : F64.ofRat ((1 : ℤ) : ℚ) = F64.fin 1 := by
    have := ofRat_intCast 1 (by norm_num)
    simpa using this
  have hf : (tempOne.Get "temperature").Float64 = (F64.fin 1, true) := by
    show (F64.ofRat ((1 : ℤ) : ℚ), (F64.ofRat ((1 : ℤ) : ℚ)).isFinite) = _
    rw [hone]; rfl
  have h1 : colorHandler NewLight "set" tempOne = setColor NewLight tempOne "temperature" := rfl
  obtain ⟨fc, _⟩ := setColor_temperature_fields NewLight tempOne
  refine ⟨hf, ?_, ?_⟩
  · rw [h1, fc, hf, ofRat_million, div_fin_fin _ _ one_ne_zero, div_one, ofRat_million]
    have hfl : ⌊(1000000 : ℚ)⌋ = 1000000 := by
      rw [Int.floor_eq_iff]; norm_num
    show some (F64.toUint16 (F64.fin ((⌊(1000000 : ℚ)⌋ : ℤ) : ℚ))) = some 16960
    rw [hfl, toUint16_intCast _ (by norm_num) (by norm_num)]
    rfl
  · rw [Nat.floor_eq_iff (by norm_num)]
    norm_num

/-- C5, amended: for a "temperature" payload with T > 0 and
1000000 / T at most 65535, `setColor` stores as colorTemperature the floor of
the float64 quotient 1000000 / T, which lies between the floor and the
ceiling of the exact quotient, and clears xy, hue and saturation. -/
theorem setColor_temperature_in_range (l : Light) (payload : Json) (t : ℚ)
    (ht : (payload.Get "temperature").Float64 = (F64.fin t, true))
    (hpos : 0 < t) (hfit : 1000000 / t ≤ 65535) :
    (setColor l payload "temperature").LightState.ColorTemp
        = some ⌊(F64.ofRat (1000000 / t)).toRat⌋₊
      ∧ (⌊1000000 / t⌋₊ ≤ ⌊(F64.ofRat (1000000 / t)).toRat⌋₊
          ∧ ⌊(F64.ofRat (1000000 / t)).toRat⌋₊ ≤ ⌈1000000 / t⌉₊)
      ∧ (setColor l payload "temperature").LightState.XY = none
      ∧ (setColor l payload "temperature").LightState.Hue = none
      ∧ (setColor l payload "temperature").LightState.Saturation = none := by
  obtain ⟨fc, fx, fh, fs, _⟩ := setColor_temperature_fields l payload
  obtain ⟨a1, a2, a3, _⟩ := temp16 t hpos hfit
  refine ⟨?_, ⟨a2, a3⟩, fx, fh, fs⟩
  rw [fc, ht, a1]

/-- Witness for `setColor_temperature_in_range`: T = 2700 on a fresh light. -/
theorem setColor_temperature_in_range_witness :
    ((tempWarm.Get "temperature").Float64 = (F64.fin 2700, true)
      ∧ (0 : ℚ) < 2700 ∧ (1000000 : ℚ) / 2700 ≤ 65535)
    ∧ (setColor NewLight tempWarm "temperature").LightState.ColorTemp
        = some ⌊(F64.ofRat (1000000 / 2700)).toRat⌋₊
    ∧ (setColor NewLight tempWarm "temperature").LightState.Hue = none := by
  have h2700 : F64.ofRat ((2700 : ℤ) : ℚ) = F64.fin 2700 := by
    have := ofRat_intCast 2700 (by norm_num)
    simpa using this
  have hf : (tempWarm.Get "temperature").Float64 = (F64.fin 2700, true) := by
    show (F64.ofRat ((2700 : ℤ) : ℚ), (F64.ofRat ((2700 : ℤ) : ℚ)).isFinite) = _
    rw [h2700]; rfl
  exact ⟨⟨hf, by norm_num, by norm_num⟩,
    (setColor_temperature_in_range NewLight tempWarm 2700 hf (by norm_num) (by norm_num)).1,
    (setColor_temperature_in_range NewLight tempWarm 2700 hf (by norm_num)
      (by norm_num)).2.2.2.1⟩

/-- C6, counterexample: on a fresh light, with no batch open, the temperature
command with T = 0 is not rejected: hue goes from 0 to unset, a
colorTemperature is stored, and one event is emitted on the color channel. -/
theorem temperature_zero_is_applied :
    (tempZero.Get "temperature").Float64 = (F64.fin 0, true)
      ∧ NewLight.LightState.Hue = some 0
      ∧ (colorHandler NewLight "set" tempZero).LightState.Hue = none
      ∧ (colorHandler NewLight "set" tempZero).LightState.ColorTemp.isSome = true
      ∧ (colorHandler NewLight "set" tempZero).events
          = [Effect.SendEvent "color" "state"
              (GetJsonLightState (colorHandler NewLight "set" tempZero))] := by
  have hf : (tempZero.Get "temperature").Float64 = (F64.fin 0, true) := by
    show (F64.ofRat ((0 : ℤ) : ℚ), (F64.ofRat ((0 : ℤ) : ℚ)).isFinite) = _
    rw [ofRat_zero]; rfl
  have h1 : colorHandler NewLight "set" tempZero = setColor NewLight tempZero "temperature" := rfl
  obtain ⟨fc, _, fh, _⟩ := setColor_temperature_fields NewLight tempZero
  have he := setColor_emits NewLight tempZero "temperature" rfl (Or.inr (Or.inr rfl))
  rw [h1]
  refine ⟨hf, rfl, fh, ?_, ?_⟩
  · rw [fc]; rfl
  · rw [he]; rfl

/-- C6, amended: a "temperature" command with T = 0 is handled like any other
temperature command.  In every state xy, hue and saturation are cleared and a
colorTemperature is stored, the `uint16` conversion of the quotient
1000000 / 0 = +Inf; with no batch open one "state" event is emitted on the
color channel, carrying the snapshot of the new state. -/
theorem setColor_temperature_zero (l : Light) (payload : Json)
    (ht : (payload.Get "temperature").Float64 = (F64.fin 0, true)) :
    (setColor l payload "temperature").LightState.XY = none
      ∧ (setColor l payload "temperature").LightState.Hue = none
      ∧ (setColor l payload "temperature").LightState.Saturation = none
      ∧ (setColor l payload "temperature").LightState.ColorTemp
          = some (F64.toUint16 (F64.inf false))
      ∧ (l.Batch = false → (setColor l payload "temperature").events
          = l.events ++ [Effect.SendEvent "color" "state"
              (GetJsonLightState (setColor l payload "temperature"))]) := by
  obtain ⟨fc, fx, fh, fs, _⟩ := setColor_temperature_fields l payload
  refine ⟨fx, fh, fs, ?_, fun hB => setColor_emits l payload "temperature" hB
    (Or.inr (Or.inr rfl))⟩
  rw [fc, ht, ofRat_million]
  rfl

/-- Witness for `setColor_temperature_zero`: T = 0 on a fresh light. -/
theorem setColor_temperature_zero_witness :
    (tempZero.Get "temperature").Float64 = (F64.fin 0, true)
      ∧ (setColor NewLight tempZero "temperature").LightState.Hue = none
      ∧ (setColor NewLight tempZero "temperature").events
          = NewLight.events ++ [Effect.SendEvent "color" "state"
              (GetJsonLightState (setColor NewLight tempZero "temperature"))] := by
  have hf : (tempZero.Get "temperature").Float64 = (F64.fin 0, true) := by
    show (F64.ofRat ((0 : ℤ) : ℚ), (F64.ofRat ((0 : ℤ) : ℚ)).isFinite) = _
    rw [ofRat_zero]; rfl
  exact ⟨hf, (setColor_temperature_zero NewLight tempZero hf).2.1,
    (setColor_temperature_zero NewLight tempZero hf).2.2.2.2 rfl⟩

/-- C7: for every state and every "xy" payload whose `x` and `y` fields hold
the floats `x` and `y`, `setColor` stores xy = [x, y] as given and clears hue,
saturation and colorTemperature. -/
theorem setColor_xy_stores (l : Light) (payload : Json) (x y : F64)
    (hx : (payload.Get "x").Float64 = (x, true))
    (hy : (payload.Get "y").Float64 = (y, true)) :
    (setColor l payload "xy").LightState.XY = some [x, y]
      ∧ (setColor l payload "xy").LightState.Hue = none
      ∧ (setColor l payload "xy").LightState.Saturation = none
      ∧ (setColor l payload "xy").LightState.ColorTemp = none := by
  obtain ⟨fx, fh, fs, fc, _⟩ := setColor_xy_fields l payload
  refine ⟨?_, fh, fs, fc⟩
  rw [fx, hx, hy]

/-- Witness for `setColor_xy_stores`: x = 0.3125, y = 0.375 on a fresh light. -/
theorem setColor_xy_stores_witness :
    ((xySample.Get "x").Float64 = (F64.fin (5 / 16), true)
      ∧ (xySample.Get "y").Float64 = (F64.fin (3 / 8), true))
    ∧ (setColor NewLight xySample "xy").LightState.XY
        = some [F64.fin (5 / 16), F64.fin (3 / 8)]
    ∧ (setColor NewLight xySample "xy").LightState.Hue = none
    ∧ (setColor NewLight xySample "xy").LightState.Saturation = none
    ∧ (setColor NewLight xySample "xy").LightState.ColorTemp = none :=
  ⟨⟨rfl, rfl⟩, setColor_xy_stores NewLight xySample _ _ rfl rfl⟩

/-- C8: for a millisecond value `ms ≥ 0` whose quotient by 1000 fits 16 bits,
`setTransition` stores transitionTime = ms div 1000 and changes nothing
else. -/
theorem setTransition_whole_seconds (l : Light) (ms : ℕ) (hfit : ms / 1000 < 65536) :
    setTransition l (ms : ℤ)
      = { l with LightState := { l.LightState with TransitionTime := some (ms / 1000) } } := by
  have h1 : Int.tdiv (ms : ℤ) 1000 = ((ms / 1000 : ℕ) : ℤ) := by
    rw [Int.tdiv_eq_ediv (by omega) (by omega)]
    omega
  have h2 : ((Int.tdiv (ms : ℤ) 1000) % 65536).toNat = ms / 1000 := by
    rw [h1]
    omega
  unfold setTransition
  simp only []
  rw [h2]

/-- Witness for `setTransition_whole_seconds`: 500 ms gives 0 and 2500 ms
gives 2. -/
theorem setTransition_whole_seconds_witness :
    (500 / 1000 < 65536 ∧ 2500 / 1000 < 65536)
      ∧ (setTransition NewLight ((500 : ℕ) : ℤ)).LightState.TransitionTime = some 0
      ∧ (setTransition NewLight ((2500 : ℕ) : ℤ)).LightState.TransitionTime = some 2 :=
  ⟨⟨by decide, by decide⟩,
    congrArg (fun l => l.LightState.TransitionTime)
      (setTransition_whole_seconds NewLight 500 (by decide)),
    congrArg (fun l => l.LightState.TransitionTime)
      (setTransition_whole_seconds NewLight 2500 (by decide))⟩

/-- C9, counterexample: on a fresh light the on/off command `set(true)` leaves
`on` at false and emits no event; its one effect is the call `TurnOn` on the
device client. -/
theorem onoff_set_true_keeps_state :
    (onOffHandler NewLight "set" onPayload).LightState.On = some false
      ∧ (onOffHandler NewLight "set" onPayload).events = []
      ∧ (onOffHandler NewLight "set" onPayload).effects = [Effect.TurnOn] :=
  ⟨rfl, rfl, rfl⟩

/-- C9, amended: for every boolean `b` and every light with no batch open, the
on/off command `set(b)` calls `TurnOn` (b true) or `TurnOff` (b false) on the
device client and does nothing else: the light state is unchanged, `on`
included, and no event is emitted. -/
theorem onoff_set_actuates_only (l : Light) (payload : Json) (b : Bool)
    (hB : l.Batch = false) (hb : (payload.GetIndex 0).Bool = (b, true)) :
    (onOffHandler l "set" payload).LightState = l.LightState
      ∧ (onOffHandler l "set" payload).events = l.events
      ∧ (onOffHandler l "set" payload).effects
          = l.effects ++ [if b = true then Effect.TurnOn else Effect.TurnOff]
      ∧ (onOffHandler l "set" payload).Batch = false := by
  have h : onOffHandler l "set" payload = turnOnOff l b := by
    unfold onOffHandler
    rw [hB, hb]
    rfl
  rw [h]
  refine ⟨turnOnOff_LightState l b, turnOnOff_events l b, ?_, ?_⟩
  · cases b <;> rfl
  · rw [turnOnOff_Batch, hB]

/-- Witness for `onoff_set_actuates_only`: `set(true)` on a fresh light. -/
theorem onoff_set_actuates_only_witness :
    (NewLight.Batch = false ∧ (onPayload.GetIndex 0).Bool = (true, true))
      ∧ (onOffHandler NewLight "set" onPayload).LightState = NewLight.LightState
      ∧ (onOffHandler NewLight "set" onPayload).events = NewLight.events :=
  ⟨⟨rfl, rfl⟩, (onoff_set_actuates_only NewLight onPayload true rfl rfl).1,
    (onoff_set_actuates_only NewLight onPayload true rfl rfl).2.1⟩

/-- C10: in every state a color-channel command whose method is not "set",
or a "set" whose mode (the empty string when the field is missing or not a
string) is none of "hue", "xy", "temperature", leaves the light as it was:
same light state, no call recorded, hence no event. -/
theorem color_rejects_unknown (l : Light) (method : String) (payload : Json)
    (h : method ≠ "set" ∨ ((payload.Get "mode").String.1 ≠ "hue"
      ∧ (payload.Get "mode").String.1 ≠ "xy"
      ∧ (payload.Get "mode").String.1 ≠ "temperature")) :
    colorHandler l method payload = l := by
  unfold colorHandler
  by_cases hB : l.Batch = true
  · rw [if_pos hB]
  · rw [if_neg hB]
    by_cases hm : method = "set"
    · rw [if_pos hm]
      rcases h with h | ⟨h1, h2, h3⟩
      · exact absurd hm h
      · simp only [setColor, refreshLightState]
        rw [if_neg h1, if_neg h2, if_neg h3]
    · rw [if_neg hm]

/-- Witness for `color_rejects_unknown`: the unknown method "toggle", and a
"set" without a mode, on a fresh light. -/
theorem color_rejects_unknown_witness :
    (("toggle" : String) ≠ "set" ∧ (noMode.Get "mode").String = ("", false))
      ∧ colorHandler NewLight "toggle" hueHalf = NewLight
      ∧ colorHandler NewLight "set" noMode = NewLight :=
  ⟨⟨by decide, rfl⟩,
    color_rejects_unknown NewLight "toggle" hueHalf (Or.inl (by decide)),
    color_rejects_unknown NewLight "set" noMode
      (Or.inr ⟨by decide, by decide, by decide⟩)⟩

/-- C11, failing input: the batch payload `{"brightness": 1.0}` has no color
and no on-off field, yet after it the light that held hue 32767 and
saturation 65535 holds hue 0 and saturation 0, and a fresh light goes from
on = false to on = true.  `Get("color")` never returns nil, so the test
`color != nil` of `setBatchColor` always passes and the "hue" case runs on an
empty `Json`. -/
theorem batch_without_color_resets_hue :
    brightnessOnly.Get "color" = Json.null
      ∧ (brightnessOnly.Get "on-off").Bool = (false, false)
      ∧ (colorHandler NewLight "set" hueHalf).LightState.Hue = some 32767
      ∧ (colorHandler NewLight "set" hueHalf).LightState.Saturation = some 65535
      ∧ (batchHandler (colorHandler NewLight "set" hueHalf) "setBatch"
          (Json.arr [brightnessOnly])).LightState.Hue = some 0
      ∧ (batchHandler (colorHandler NewLight "set" hueHalf) "setBatch"
          (Json.arr [brightnessOnly])).LightState.Saturation = some 0
      ∧ NewLight.LightState.On = some false
      ∧ (batchHandler NewLight "setBatch" (Json.arr [brightnessOnly])).LightState.On
          = some true := by
  have h1 : colorHandler NewLight "set" hueHalf = setColor NewLight hueHalf "hue" := rfl
  obtain ⟨_, _, fh, fs, _⟩ := setColor_hue_fields NewLight hueHalf
  have hb : ∀ l : Light, batchHandler l "setBatch" (Json.arr [brightnessOnly])
      = setBatchColor l brightnessOnly := fun _ => rfl
  obtain ⟨_, _, bh, bs, _⟩ := setBatchColor_fields (setColor NewLight hueHalf "hue") brightnessOnly
  obtain ⟨bo, _⟩ := setBatchColor_fields NewLight brightnessOnly
  rw [h1, hb, hb]
  refine ⟨rfl, rfl, ?_, ?_, ?_, ?_, rfl, bo⟩
  · rw [fh]; exact congrArg some scale16_half
  · rw [fs]; exact congrArg some scale16_one
  · rw [bh]; exact congrArg some scale16_zero
  · rw [bs]; exact congrArg some scale16_zero

/-- C12: applying a color command twice leaves the light state where one
application puts it, for `setColor` in every mode and for the "set" method
of the color channel, with or without a transition field. -/
theorem color_command_idempotent (l : Light) (p : Json) (mode : String) :
    (setColor (setColor l p mode) p mode).LightState = (setColor l p mode).LightState
      ∧ (colorHandler (colorHandler l "set" p) "set" p).LightState
          = (colorHandler l "set" p).LightState := by
  refine ⟨setColor_idem l p mode, ?_⟩
  have hB := colorHandler_Batch l "set" p
  cases hb : l.Batch
  · have h1 : colorHandler l "set" p = setColor l p (p.Get "mode").String.1 := by
      unfold colorHandler
      rw [hb]
      rfl
    have h2 : colorHandler (colorHandler l "set" p) "set" p
        = setColor (colorHandler l "set" p) p (p.Get "mode").String.1 := by
      rw [hb] at hB
      unfold colorHandler
      unfold colorHandler at hB
      rw [hB]
      rfl
    rw [h2, h1]
    exact setColor_idem l p _
  · have h1 : colorHandler l "set" p = l := by
      unfold colorHandler
      rw [hb]
      rfl
    rw [h1, h1]

/-- C13: the snapshot built by `GetJsonLightState` is the object with exactly
the seven keys on, bri, sat, hue, ct, transitionTime, xy, each holding the
value of its field (On, Brightness, Saturation, Hue, ColorTemp,
TransitionTime, XY) or nil when the field is unset; hence two lights whose
light states differ have different snapshots. -/
theorem snapshot_seven_keys (l l2 : Light) :
    GetJsonLightState l
        = Json.obj [("on", jsonOfBool l.LightState.On),
            ("bri", jsonOfUint16 l.LightState.Brightness),
            ("sat", jsonOfUint16 l.LightState.Saturation),
            ("hue", jsonOfUint16 l.LightState.Hue),
            ("ct", jsonOfUint16 l.LightState.ColorTemp),
            ("transitionTime", jsonOfUint16 l.LightState.TransitionTime),
            ("xy", jsonOfFloats l.LightState.XY)]
      ∧ (l.LightState ≠ l2.LightState → GetJsonLightState l ≠ GetJsonLightState l2) := by
  have hform : ∀ x : Light, GetJsonLightState x
      = Json.obj [("on", jsonOfBool x.LightState.On),
          ("bri", jsonOfUint16 x.LightState.Brightness),
          ("sat", jsonOfUint16 x.LightState.Saturation),
          ("hue", jsonOfUint16 x.LightState.Hue),
          ("ct", jsonOfUint16 x.LightState.ColorTemp),
          ("transitionTime", jsonOfUint16 x.LightState.TransitionTime),
          ("xy", jsonOfFloats x.LightState.XY)] := by
    intro x
    simp [GetJsonLightState, Json.New, Json.Set]
  have hB : ∀ a b : Option Bool, jsonOfBool a = jsonOfBool b → a = b := by
    intro a b h
    cases a <;> cases b <;> simp [jsonOfBool] at h ⊢
    exact h
  have hU : ∀ a b : Option ℕ, jsonOfUint16 a = jsonOfUint16 b → a = b := by
    intro a b h
    cases a <;> cases b <;> simp [jsonOfUint16] at h ⊢
    exact h
  have hnum : Function.Injective Json.num := by
    intro a b h
    exact Json.num.inj h
  have hF : ∀ a b : Option (List F64), jsonOfFloats a = jsonOfFloats b → a = b := by
    intro a b h
    cases a <;> cases b <;> simp [jsonOfFloats] at h ⊢
    exact (List.map_injective_iff.mpr hnum) h
  refine ⟨hform l, ?_⟩
  intro hne heq
  apply hne
  rw [hform l, hform l2] at heq
  simp only [Json.obj.injEq, List.cons.injEq, Prod.mk.injEq, true_and, and_true] at heq
  obtain ⟨h1, h2, h3, h4, h5, h6, h7⟩ := heq
  rcases hl : l.LightState with ⟨a1, a2, a3, a4, a5, a6, a7⟩
  rcases hl2 : l2.LightState with ⟨b1, b2, b3, b4, b5, b6, b7⟩
  rw [hl, hl2] at h1 h2 h3 h4 h5 h6 h7
  simp only at h1 h2 h3 h4 h5 h6 h7
  rw [hB _ _ h1, hU _ _ h2, hU _ _ h3, hU _ _ h4, hU _ _ h5, hU _ _ h6, hF _ _ h7]

/-- Witness for `snapshot_seven_keys`: a fresh light and the light after the
xy command. -/
theorem snapshot_seven_keys_witness :
    NewLight.LightState ≠ (setColor NewLight xySample "xy").LightState
      ∧ GetJsonLightState NewLight ≠ GetJsonLightState (setColor NewLight xySample "xy") := by
  have hne : NewLight.LightState ≠ (setColor NewLight xySample "xy").LightState := by
    intro h
    have h2 := congrArg LightState.Hue h
    rw [(setColor_xy_fields NewLight xySample).2.1] at h2
    cases h2
  exact ⟨hne, (snapshot_seven_keys NewLight (setColor NewLight xySample "xy")).2 hne⟩

/-- C14, counterexample: on a light whose batching flag is set the color
command with hue 0.5 and saturation 1.0 changes nothing, hue stays 0, while
outside a batch the same command stores hue 32767. -/
theorem batch_flag_drops_color_command :
    (StartBatch NewLight).Batch = true
      ∧ colorHandler (StartBatch NewLight) "set" hueHalf = StartBatch NewLight
      ∧ (colorHandler (StartBatch NewLight) "set" hueHalf).LightState.Hue = some 0
      ∧ (colorHandler NewLight "set" hueHalf).LightState.Hue = some 32767 := by
  have h1 : colorHandler NewLight "set" hueHalf = setColor NewLight hueHalf "hue" := rfl
  refine ⟨rfl, rfl, rfl, ?_⟩
  rw [h1, (setColor_hue_fields NewLight hueHalf).2.2.1]
  exact congrArg some scale16_half

/-- C14, amended: in every state in which the batching flag is set, a command
arriving on the on/off, brightness or color channel is dropped by the guard
at the top of the handler: the light is left as it was, so there is no state
mutation, no device call and no event. -/
theorem handlers_drop_in_batch (l : Light) (method : String) (payload : Json)
    (h : l.Batch = true) :
    onOffHandler l method payload = l
      ∧ brightnessHandler l method payload = l
      ∧ colorHandler l method payload = l := by
  refine ⟨?_, brightnessHandler_eq l method payload, ?_⟩
  · unfold onOffHandler
    rw [if_pos h]
  · unfold colorHandler
    rw [if_pos h]

/-- Witness for `handlers_drop_in_batch`: a fresh light with the flag set. -/
theorem handlers_drop_in_batch_witness :
    (StartBatch NewLight).Batch = true
      ∧ onOffHandler (StartBatch NewLight) "set" onPayload = StartBatch NewLight
      ∧ brightnessHandler (StartBatch NewLight) "set" onPayload = StartBatch NewLight
      ∧ colorHandler (StartBatch NewLight) "set" hueHalf = StartBatch NewLight :=
  ⟨rfl, (handlers_drop_in_batch (StartBatch NewLight) "set" onPayload rfl).1,
    (handlers_drop_in_batch (StartBatch NewLight) "set" onPayload rfl).2.1,
    (handlers_drop_in_batch (StartBatch NewLight) "set" hueHalf rfl).2.2⟩

/-- C15, counterexample: on a fresh light the "hue" command without a hue
field is not dropped: it stores hue 0 and saturation 65535, turns on from
false to true, and one event is emitted on the color channel. -/
theorem hue_missing_is_applied :
    (hueMissing.Get "hue").Float64 = (F64.fin 0, false)
      ∧ NewLight.LightState.On = some false
      ∧ (colorHandler NewLight "set" hueMissing).LightState.On = some true
      ∧ (colorHandler NewLight "set" hueMissing).LightState.Hue = some 0
      ∧ (colorHandler NewLight "set" hueMissing).LightState.Saturation = some 65535
      ∧ (colorHandler NewLight "set" hueMissing).events
          = [Effect.SendEvent "color" "state"
              (GetJsonLightState (colorHandler NewLight "set" hueMissing))] := by
  have h1 : colorHandler NewLight "set" hueMissing = setColor NewLight hueMissing "hue" := rfl
  obtain ⟨fo, _, fh, fs, _⟩ := setColor_hue_fields NewLight hueMissing
  have he := setColor_emits NewLight hueMissing "hue" rfl (Or.inl rfl)
  rw [h1]
  refine ⟨rfl, rfl, fo, ?_, ?_, ?_⟩
  · rw [fh]; exact congrArg some scale16_zero
  · rw [fs]; exact congrArg some scale16_one
  · rw [he]; rfl

/-- C15, amended: a "hue" command whose hue or saturation field is missing or
not a number is applied with 0 in its place: the extraction error is
discarded and the value read is 0.  In every state the component read as 0
is stored as 0 and on is set to true; with no batch open one "state" event is
emitted on the color channel. -/
theorem setColor_hue_missing_field (l : Light) (payload : Json) :
    ((payload.Get "hue").Float64 = (F64.fin 0, false) →
        (setColor l payload "hue").LightState.Hue = some 0)
      ∧ ((payload.Get "saturation").Float64 = (F64.fin 0, false) →
        (setColor l payload "hue").LightState.Saturation = some 0)
      ∧ (setColor l payload "hue").LightState.On = some true
      ∧ (l.Batch = false → (setColor l payload "hue").events
          = l.events ++ [Effect.SendEvent "color" "state"
              (GetJsonLightState (setColor l payload "hue"))]) := by
  obtain ⟨fo, _, fh, fs, _⟩ := setColor_hue_fields l payload
  refine ⟨?_, ?_, fo, fun hB => setColor_emits l payload "hue" hB (Or.inl rfl)⟩
  · intro hh
    rw [fh, hh]
    exact congrArg some scale16_zero
  · intro hs
    rw [fs, hs]
    exact congrArg some scale16_zero

/-- Witness for `setColor_hue_missing_field`: the command without a hue on a
fresh light. -/
theorem setColor_hue_missing_field_witness :
    (hueMissing.Get "hue").Float64 = (F64.fin 0, false)
      ∧ (setColor NewLight hueMissing "hue").LightState.Hue = some 0
      ∧ (setColor NewLight hueMissing "hue").LightState.On = some true
      ∧ (setColor NewLight hueMissing "hue").events
          = NewLight.events ++ [Effect.SendEvent "color" "state"
              (GetJsonLightState (setColor NewLight hueMissing "hue"))] :=
  ⟨rfl, (setColor_hue_missing_field NewLight hueMissing).1 rfl,
    (setColor_hue_missing_field NewLight hueMissing).2.2.1,
    (setColor_hue_missing_field NewLight hueMissing).2.2.2 rfl⟩

/-- C16: with no batch open, a color command whose mode is "hue", "xy" or
"temperature" emits exactly one event: the events after the call are those
before it followed by one "state" event on the color channel whose body is
the snapshot of the light state the command leaves. -/
theorem color_command_emits_once (l : Light) (payload : Json) (mode : String)
    (hB : l.Batch = false) (hmode : (payload.Get "mode").String = (mode, true))
    (hm : mode = "hue" ∨ mode = "xy" ∨ mode = "temperature") :
    (colorHandler l "set" payload).events
        = l.events ++ [Effect.SendEvent "color" "state"
            (GetJsonLightState (colorHandler l "set" payload))]
      ∧ (setColor l payload mode).events
        = l.events ++ [Effect.SendEvent "color" "state"
            (GetJsonLightState (setColor l payload mode))] := by
  have h1 : colorHandler l "set" payload = setColor l payload mode := by
    unfold colorHandler
    rw [hB, hmode]
    rfl
  rw [h1]
  exact ⟨setColor_emits l payload mode hB hm, setColor_emits l payload mode hB hm⟩

/-- Witness for `color_command_emits_once`: the xy command on a fresh light;
the body carries the new xy pair, not the unset one of the state before. -/
theorem color_command_emits_once_witness :
    (NewLight.Batch = false ∧ (xySample.Get "mode").String = ("xy", true))
      ∧ (colorHandler NewLight "set" xySample).events
        = NewLight.events ++ [Effect.SendEvent "color" "state"
            (GetJsonLightState (colorHandler NewLight "set" xySample))]
      ∧ (GetJsonLightState (colorHandler NewLight "set" xySample)).Get "xy"
        = Json.arr [Json.num (F64.fin (5 / 16)), Json.num (F64.fin (3 / 8))]
      ∧ (GetJsonLightState NewLight).Get "xy" = Json.null :=
  ⟨⟨rfl, rfl⟩,
    (color_command_emits_once NewLight xySample "xy" rfl rfl (Or.inr (Or.inl rfl))).1,
    rfl, rfl⟩

/-- C17: whatever the state, the payload and the mode, `setColor` leaves
brightness as it was; in the modes "xy" and "temperature" it leaves on as it
was; and when the payload has no usable `transition` field (the extraction
`Int()` fails, as it does for an absent field) it leaves transitionTime as it
was. -/
theorem color_command_frame (l : Light) (payload : Json) (mode : String) :
    (setColor l payload mode).LightState.Brightness = l.LightState.Brightness
      ∧ ((mode = "xy" ∨ mode = "temperature") →
          (setColor l payload mode).LightState.On = l.LightState.On)
      ∧ ((payload.Get "transition").Int.2 = false →
          (setColor l payload mode).LightState.TransitionTime
            = l.LightState.TransitionTime) :=
  ⟨(setColor_frame l payload mode).1, (setColor_frame l payload mode).2.1,
    (setColor_frame l payload mode).2.2.1⟩

/-- Witness for `color_command_frame`: the xy command, which has no transition
field, on a fresh light. -/
theorem color_command_frame_witness :
    (("xy" : String) = "xy" ∧ xySample.Get "transition" = Json.null
        ∧ (xySample.Get "transition").Int.2 = false)
      ∧ (setColor NewLight xySample "xy").LightState.Brightness = some 0
      ∧ (setColor NewLight xySample "xy").LightState.On = some false
      ∧ (setColor NewLight xySample "xy").LightState.TransitionTime = some 0 :=
  ⟨⟨rfl, rfl, rfl⟩, (color_command_frame NewLight xySample "xy").1,
    (color_command_frame NewLight xySample "xy").2.1 (Or.inl rfl),
    (color_command_frame NewLight xySample "xy").2.2 rfl⟩

/-- C18: after every sequence of commands on the four channels, each handled
to completion from the light built by `NewLight`, the batching flag is false.
The next command is therefore handled in a state where the guard
`light.Batch == true` of the on/off, brightness and color handlers fails. -/
theorem batch_flag_false_between_commands (cmds : List Command) (c : Command) :
    (run NewLight cmds).Batch = false
      ∧ run NewLight (cmds ++ [c]) = handle (run NewLight cmds) c
      ∧ (run NewLight (cmds ++ [c])).Batch = false :=
  ⟨run_Batch cmds NewLight rfl, by rw [run_append]; rfl,
    run_Batch (cmds ++ [c]) NewLight rfl⟩

/-- C19: for every integer `ms`, `setTransition` stores the quotient of `ms`
by 1000 truncated toward zero, reduced modulo 2 ^ 16 to a value below 65536,
and changes nothing else; -1000 stores 65535, -999 stores 0 and 65536000
stores 0. -/
theorem setTransition_wraps (l : Light) (ms : ℤ) :
    setTransition l ms
        = { l with LightState :=
            { l.LightState with TransitionTime := some ((Int.tdiv ms 1000) % 65536).toNat } }
      ∧ ((((Int.tdiv ms 1000) % 65536).toNat : ℤ) = (Int.tdiv ms 1000) % 65536
          ∧ ((Int.tdiv ms 1000) % 65536).toNat < 65536)
      ∧ (0 ≤ ms → Int.tdiv ms 1000 = ms / 1000)
      ∧ (ms < 0 → Int.tdiv ms 1000 = -((-ms) / 1000))
      ∧ (setTransition l (-1000)).LightState.TransitionTime = some 65535
      ∧ (setTransition l (-999)).LightState.TransitionTime = some 0
      ∧ (setTransition l 65536000).LightState.TransitionTime = some 0 := by
  refine ⟨rfl, ⟨?_, ?_⟩, ?_, ?_, rfl, rfl, rfl⟩
  · omega
  · omega
  · intro h
    exact Int.tdiv_eq_ediv h (by norm_num)
  · intro h
    have h2 : Int.tdiv ms 1000 = -(Int.tdiv (-ms) 1000) := by
      rw [Int.neg_tdiv, neg_neg]
    rw [h2, Int.tdiv_eq_ediv (by omega) (by norm_num)]

/-- Witness for `setTransition_wraps`: -2500 ms, whose quotient truncated
toward zero is -2, stores 65534. -/
theorem setTransition_wraps_witness :
    ((-2500 : ℤ) < 0)
      ∧ Int.tdiv (-2500) 1000 = -((-(-2500 : ℤ)) / 1000)
      ∧ (setTransition NewLight (-2500)).LightState.TransitionTime = some 65534 :=
  ⟨by decide, (setTransition_wraps NewLight (-2500)).2.2.2.1 (by decide),
    congrArg (fun x => x.LightState.TransitionTime) (setTransition_wraps NewLight (-2500)).1⟩

end Lifx
